import Mathlib

/-!
Verification of the weight-synchronization control plane of
`verifiers/inference/vllm_server.py`.

The development shallowly embeds the pieces of the server the
specification talks about:

* `WeightSyncWorkerExtension` — per-worker communicator state machine
  (`init_communicator`, `update_named_param`, `close_communicator`);
* the dtype-string resolution and request handling of the HTTP façade
  (`update_named_param` / `init_communicator` endpoints);
* the weight-update throttle (an `asyncio.Semaphore` of capacity 10);
* the background-task supervisor and the shutdown epilogue of
  `run_server`.

Side effects (buffer allocation, NCCL broadcast, barrier, weight
application, task cancellation, socket close) are made observable as
explicit event traces.
-/

namespace VllmServer

/-! ## Torch dtypes (external `torch` module interface) -/

/-- Stand-in values for `torch` module attributes as resolved by the
update handler (`torch.float32` and friends).  The façade theorems depend
only on the value of the `"float32"` attribute and on which names resolve
at all, so this small value type suffices; the attribute *table* itself
is kept abstract (see `TorchTable`). -/
inductive TorchDtype
  | float32 | float64 | float16 | bfloat16
  | int8 | int16 | int32 | int64 | uint8 | bool_
  deriving DecidableEq, Repr

/-! ## Per-worker communicator state machine

Embeds `WeightSyncWorkerExtension` (vllm_server.py lines 45-110).
The `PyNcclCommunicator` built by `init_communicator` is represented by
the data it is constructed from: the `StatelessProcessGroup.create`
arguments `host`, `port`, `rank`, `world_size`. -/

/-- Errors raised by the worker extension methods (`RuntimeError`s in the
source, distinguished by their messages). -/
inductive WorkerError
  | alreadyInitialized  -- "Weight update group already initialized. Call close_communicator first."
  | notInitialized      -- "Communicator not initialized. Call `init_communicator` first."
  deriving DecidableEq, Repr

/-- The communicator object: `PyNcclCommunicator(StatelessProcessGroup.create(host, port, rank, world_size))`. -/
structure PyNcclComm where
  host : String
  port : Nat
  rank : Nat
  world_size : Nat
  deriving DecidableEq, Repr

/-- The mutable attributes of `WeightSyncWorkerExtension`:
`pynccl_comm = None` and `client_rank = None` initially. -/
structure WorkerState where
  pynccl_comm : Option PyNcclComm
  client_rank : Option Nat
  deriving DecidableEq, Repr

/-- The state a worker is created in: both attributes `None`. -/
def WorkerState.initial : WorkerState := { pynccl_comm := none, client_rank := none }

/-- Observable side effects of `update_named_param` on a worker, in the
order the source performs them:
`torch.empty(shape, dtype=dtype)`, `pynccl_comm.broadcast(weight, src=client_rank)`,
`pynccl_comm.group.barrier()`, `model_runner.model.load_weights([(name, weight)])`. -/
inductive WorkerEvent
  | allocBuffer (shape : List Nat) (dtype : TorchDtype)
  | broadcast (shape : List Nat) (dtype : TorchDtype) (src : Option Nat)
  | barrier
  | loadWeights (name : String) (shape : List Nat) (dtype : TorchDtype)
  deriving DecidableEq, Repr

/-- `WeightSyncWorkerExtension.init_communicator(host, port, world_size)`.
`rank` is the worker's own `get_world_group().rank`.  Raises
`alreadyInitialized` when a communicator is already present; otherwise
builds the communicator and sets `client_rank = world_size - 1`. -/
def init_communicator (w : WorkerState) (rank : Nat) (host : String) (port : Nat)
    (world_size : Nat) : Except WorkerError WorkerState :=
  if w.pynccl_comm.isSome then
    .error .alreadyInitialized
  else
    .ok { pynccl_comm := some { host := host, port := port, rank := rank, world_size := world_size },
          client_rank := some (world_size - 1) }

/-- `WeightSyncWorkerExtension.update_named_param(name, dtype, shape)`.
Raises `notInitialized` when no communicator is present (before any side
effect); otherwise performs the alloc / broadcast / barrier / load
sequence and leaves the communicator attributes untouched. -/
def update_named_param (w : WorkerState) (name : String) (dtype : TorchDtype)
    (shape : List Nat) : Except WorkerError (WorkerState × List WorkerEvent) :=
  if w.pynccl_comm = none then
    .error .notInitialized
  else
    .ok (w, [.allocBuffer shape dtype,
             .broadcast shape dtype w.client_rank,
             .barrier,
             .loadWeights name shape dtype])

/-- The side effects a call to `update_named_param` performs: none when it
raises (the `None` check is the first statement of the method), the four
ordered effects otherwise. -/
def updateEventTrace (w : WorkerState) (name : String) (dtype : TorchDtype)
    (shape : List Nat) : List WorkerEvent :=
  match update_named_param w name dtype shape with
  | .ok (_, evs) => evs
  | .error _ => []

/-- `WeightSyncWorkerExtension.close_communicator()`: if a communicator is
present, delete it and reset both attributes to `None`; otherwise do
nothing.  Never raises. -/
def close_communicator (w : WorkerState) : Except WorkerError WorkerState :=
  if w.pynccl_comm.isSome then
    .ok { pynccl_comm := none, client_rank := none }
  else
    .ok w

/-- `close_communicator` called `n` times in a row, stopping at the first
error (none ever occurs). -/
def closeNTimes : Nat → WorkerState → Except WorkerError WorkerState
  | 0, w => .ok w
  | n + 1, w => (close_communicator w).bind (closeNTimes n)

/-- One worker-extension method invocation, with its arguments. -/
inductive WorkerOp
  | initOp (rank : Nat) (host : String) (port : Nat) (world_size : Nat)
  | updateOp (name : String) (dtype : TorchDtype) (shape : List Nat)
  | closeOp

/-- Effect of one method call on the worker's attributes.  A raised error
leaves the attributes as they were (each method raises before mutating). -/
def workerStep (w : WorkerState) : WorkerOp → WorkerState
  | .initOp r h p ws =>
      match init_communicator w r h p ws with
      | .ok w' => w'
      | .error _ => w
  | .updateOp n d s =>
      match update_named_param w n d s with
      | .ok (w', _) => w'
      | .error _ => w
  | .closeOp =>
      match close_communicator w with
      | .ok w' => w'
      | .error _ => w

/-- Running a sequence of method calls from the worker's creation state. -/
def runWorker (ops : List WorkerOp) : WorkerState :=
  ops.foldl workerStep WorkerState.initial

/-- The specified state invariant: `client_rank` is `Some` iff
`pynccl_comm` is `Some`. -/
def commInvariant (w : WorkerState) : Prop :=
  w.client_rank.isSome = w.pynccl_comm.isSome

instance (w : WorkerState) : Decidable (commInvariant w) := by
  unfold commInvariant; infer_instance

/-! ### Helper lemmas for the worker state machine -/

lemma workerStep_preserves_invariant (w : WorkerState) (op : WorkerOp)
    (h : commInvariant w) : commInvariant (workerStep w op) := by
  cases op with
  | initOp r hh p ws =>
      simp only [workerStep, init_communicator]
      by_cases hc : w.pynccl_comm.isSome
      · simp [hc, h]
      · simp [hc, commInvariant]
  | updateOp n d s =>
      simp only [workerStep, update_named_param]
      by_cases hc : w.pynccl_comm = none
      · simp [hc, h]
      · simp [hc, h]
  | closeOp =>
      simp only [workerStep, close_communicator]
      by_cases hc : w.pynccl_comm.isSome
      · simp [hc, commInvariant]
      · simp [hc, h]

lemma foldl_workerStep_invariant (ops : List WorkerOp) (w : WorkerState)
    (h : commInvariant w) : commInvariant (ops.foldl workerStep w) := by
  induction ops generalizing w with
  | nil => exact h
  | cons op rest ih =>
      exact ih _ (workerStep_preserves_invariant w op h)

lemma close_communicator_of_invariant (w : WorkerState) (h : commInvariant w) :
    close_communicator w = .ok WorkerState.initial := by
  obtain ⟨pc, cr⟩ := w
  cases pc with
  | some c => simp [close_communicator, WorkerState.initial]
  | none =>
      cases cr with
      | none => simp [close_communicator, WorkerState.initial]
      | some r => simp [commInvariant] at h

lemma closeNTimes_initial (n : Nat) :
    closeNTimes n WorkerState.initial = .ok WorkerState.initial := by
  induction n with
  | zero => rfl
  | succ n ih =>
      simpa [closeNTimes, close_communicator, WorkerState.initial, Except.bind] using ih

/-! ## Claims about the worker state machine -/

/-- Claim C1: on an initialized worker (state produced by a successful
`init_communicator` with some `world_size`), `update_named_param` performs
exactly the ordered sequence: allocate a buffer of the given shape and
dtype, broadcast that buffer with source rank equal to the stored client
rank — which `init_communicator` set to `world_size - 1` — then a
full-group barrier, and only then load the received tensor into the
model's parameter `name`; the communicator attributes are unchanged. -/
theorem update_broadcast_barrier_load_sequence
    (w : WorkerState) (rank : Nat) (host : String) (port ws : Nat) (w' : WorkerState)
    (hinit : init_communicator w rank host port ws = .ok w')
    (name : String) (dtype : TorchDtype) (shape : List Nat) :
    w'.client_rank = some (ws - 1) ∧
    update_named_param w' name dtype shape =
      .ok (w', [.allocBuffer shape dtype,
                .broadcast shape dtype (some (ws - 1)),
                .barrier,
                .loadWeights name shape dtype]) := by
  unfold init_communicator at hinit
  by_cases hc : w.pynccl_comm.isSome
  · simp [hc] at hinit
  · simp only [hc, if_neg, Bool.false_eq_true, reduceIte, Except.ok.injEq] at hinit
    subst hinit
    refine ⟨rfl, ?_⟩
    simp [update_named_param]

/-- Witness for C1 at the spec's end-to-end scenario: worker rank 0 joins a
rendezvous of world size 3; the client rank is 2 and a `[4,4]` float32
update broadcasts from rank 2. -/
theorem update_broadcast_barrier_load_sequence_witness :
    ({ pynccl_comm := some { host := "127.0.0.1", port := 29500, rank := 0, world_size := 3 },
       client_rank := some 2 } : WorkerState).client_rank = some 2 ∧
    update_named_param
      { pynccl_comm := some { host := "127.0.0.1", port := 29500, rank := 0, world_size := 3 },
        client_rank := some 2 } "layer.weight" .float32 [4, 4] =
      .ok ({ pynccl_comm := some { host := "127.0.0.1", port := 29500, rank := 0, world_size := 3 },
             client_rank := some 2 },
           [.allocBuffer [4, 4] .float32,
            .broadcast [4, 4] .float32 (some 2),
            .barrier,
            .loadWeights "layer.weight" [4, 4] .float32]) :=
  update_broadcast_barrier_load_sequence WorkerState.initial 0 "127.0.0.1" 29500 3
    _ rfl "layer.weight" .float32 [4, 4]

/-- Claim C2: a second `init_communicator` on an already-initialized worker
(no intervening `close_communicator`) fails with `alreadyInitialized`, and
the failed call leaves the worker's state exactly as the first call
established it. -/
theorem init_communicator_twice_fails
    (w : WorkerState) (rank : Nat) (host : String) (port ws : Nat) (w' : WorkerState)
    (hfirst : init_communicator w rank host port ws = .ok w')
    (rank2 : Nat) (host2 : String) (port2 ws2 : Nat) :
    init_communicator w' rank2 host2 port2 ws2 = .error .alreadyInitialized ∧
    workerStep w' (.initOp rank2 host2 port2 ws2) = w' := by
  unfold init_communicator at hfirst
  by_cases hc : w.pynccl_comm.isSome
  · simp [hc] at hfirst
  · simp only [hc, Bool.false_eq_true, reduceIte, Except.ok.injEq] at hfirst
    subst hfirst
    constructor
    · simp [init_communicator]
    · simp [workerStep, init_communicator]

/-- Witness for C2: initializing twice from the creation state; the second
call errors and the state keeps the first call's communicator. -/
theorem init_communicator_twice_fails_witness :
    init_communicator
      { pynccl_comm := some { host := "127.0.0.1", port := 29500, rank := 0, world_size := 3 },
        client_rank := some 2 } 0 "10.0.0.1" 29501 5 = .error .alreadyInitialized ∧
    workerStep
      { pynccl_comm := some { host := "127.0.0.1", port := 29500, rank := 0, world_size := 3 },
        client_rank := some 2 } (.initOp 0 "10.0.0.1" 29501 5) =
      { pynccl_comm := some { host := "127.0.0.1", port := 29500, rank := 0, world_size := 3 },
        client_rank := some 2 } :=
  init_communicator_twice_fails WorkerState.initial 0 "127.0.0.1" 29500 3 _ rfl
    0 "10.0.0.1" 29501 5

/-- Claim C3: on a worker whose communicator is `None`, `update_named_param`
fails with `notInitialized` and performs no side effect: no buffer
allocation, broadcast, barrier, or weight application occurs. -/
theorem update_not_initialized_fails
    (w : WorkerState) (hw : w.pynccl_comm = none)
    (name : String) (dtype : TorchDtype) (shape : List Nat) :
    update_named_param w name dtype shape = .error .notInitialized ∧
    updateEventTrace w name dtype shape = [] := by
  constructor
  · simp [update_named_param, hw]
  · simp [updateEventTrace, update_named_param, hw]

/-- Witness for C3: an update on a freshly created worker fails with no
side effects. -/
theorem update_not_initialized_fails_witness :
    update_named_param WorkerState.initial "layer.weight" .float32 [4, 4] =
      .error .notInitialized ∧
    updateEventTrace WorkerState.initial "layer.weight" .float32 [4, 4] = [] :=
  update_not_initialized_fails WorkerState.initial rfl "layer.weight" .float32 [4, 4]

/-- Claim C4: `close_communicator` is idempotent — on any worker satisfying
the state invariant, calling it `n ≥ 1` times in a row never raises and
leaves the state Uninitialized (both attributes `None`). -/
theorem close_communicator_idempotent
    (w : WorkerState) (hinv : commInvariant w) (n : Nat) (hn : 1 ≤ n) :
    closeNTimes n w = .ok WorkerState.initial := by
  obtain ⟨m, rfl⟩ : ∃ m, n = m + 1 := ⟨n - 1, (Nat.succ_pred_eq_of_pos hn).symm⟩
  have h1 := close_communicator_of_invariant w hinv
  simp [closeNTimes, h1, Except.bind, closeNTimes_initial]

/-- Witness for C4: closing three times from an initialized worker ends
Uninitialized with no error. -/
theorem close_communicator_idempotent_witness :
    closeNTimes 3
      { pynccl_comm := some { host := "127.0.0.1", port := 29500, rank := 0, world_size := 3 },
        client_rank := some 2 } = .ok WorkerState.initial :=
  close_communicator_idempotent
    { pynccl_comm := some { host := "127.0.0.1", port := 29500, rank := 0, world_size := 3 },
      client_rank := some 2 } rfl 3 (by decide)

/-- Claim C5: after any sequence of `init_communicator`,
`update_named_param` and `close_communicator` calls (succeeding or
failing) from the creation state, the invariant holds: `client_rank` is
`Some` iff the communicator is `Some`. -/
theorem client_rank_iff_communicator_invariant :
    ∀ ops : List WorkerOp, commInvariant (runWorker ops) := by
  intro ops
  exact foldl_workerStep_invariant ops WorkerState.initial rfl

/-! ## Weight-update throttle

Embeds `weight_update_semaphore = asyncio.Semaphore(MAX_CONCURRENT_WEIGHT_UPDATES)`
(lines 38-40) together with `throttled_update` (lines 179-184): each update
task runs `async with weight_update_semaphore: await engine.collective_rpc(...)`,
so it acquires one lease before the collective call begins and the
`async with` block releases the lease when the call ends, also when it
raises. -/

/-- `MAX_CONCURRENT_WEIGHT_UPDATES = 10`. -/
def MAX_CONCURRENT_WEIGHT_UPDATES : Nat := 10

/-- A burst of concurrent `throttled_update` tasks, counted by phase:
`waiting` tasks have not yet entered the `async with` block, `holding`
tasks hold a semaphore lease with their collective call in progress,
`finished` tasks have exited the block (lease released), whether their
collective call succeeded or failed. -/
structure ThrottleSystem where
  waiting : Nat
  holding : Nat
  finished : Nat
  deriving DecidableEq, Repr

/-- Interleaving of a burst of `throttled_update` tasks.  A waiting task
may acquire a lease only while fewer than `MAX_CONCURRENT_WEIGHT_UPDATES`
leases are held (the semaphore's guarantee); a holding task's collective
call may end at any time, successfully or not (`success`), and the
`async with` exit releases its lease unconditionally. -/
inductive ThrottleStep : ThrottleSystem → ThrottleSystem → Prop
  | acquire (w h f : Nat) (hcap : h < MAX_CONCURRENT_WEIGHT_UPDATES) :
      ThrottleStep ⟨w + 1, h, f⟩ ⟨w, h + 1, f⟩
  | finish (success : Bool) (w h f : Nat) :
      ThrottleStep ⟨w, h + 1, f⟩ ⟨w, h, f + 1⟩

lemma throttleStep_holding_le {s t : ThrottleSystem} (hstep : ThrottleStep s t)
    (hs : s.holding ≤ MAX_CONCURRENT_WEIGHT_UPDATES) :
    t.holding ≤ MAX_CONCURRENT_WEIGHT_UPDATES := by
  cases hstep with
  | acquire w h f hcap => exact hcap
  | finish success w h f => exact Nat.le_of_succ_le hs

/-- Claim C6: in any burst of `k ≥ 11` concurrent `throttled_update`
tasks, every reachable interleaving keeps at most 10 leases
acquired-but-not-released, i.e. at most 10 update broadcasts concurrently
in progress. -/
theorem at_most_ten_concurrent_update_broadcasts
    (k : Nat) (_hk : 11 ≤ k) (s : ThrottleSystem)
    (hreach : Relation.ReflTransGen ThrottleStep ⟨k, 0, 0⟩ s) :
    s.holding ≤ MAX_CONCURRENT_WEIGHT_UPDATES := by
  induction hreach with
  | refl => exact Nat.zero_le _
  | tail hab hbc ih => exact throttleStep_holding_le hbc ih

/-- Witness for C6: a burst of 11 tasks, one of which has acquired a
lease. -/
theorem at_most_ten_concurrent_update_broadcasts_witness :
    ({ waiting := 10, holding := 1, finished := 0 } : ThrottleSystem).holding ≤
      MAX_CONCURRENT_WEIGHT_UPDATES :=
  at_most_ten_concurrent_update_broadcasts 11 (by decide) ⟨10, 1, 0⟩
    (Relation.ReflTransGen.single (ThrottleStep.acquire 10 0 0 (by decide)))

/-! ## Background-task supervisor and shutdown

Embeds `background_tasks` (line 43), `create_background_task`
(lines 121-126) and the tail of `run_server` (lines 212-220):

    await shutdown_task
    for task in background_tasks: task.cancel()
    if background_tasks: await asyncio.gather(*background_tasks, return_exceptions=True)
    sock.close()
-/

/-- Observable effects on the shutdown path of `run_server`:
`serveStopped` is the completion of `shutdown_task` (the HTTP server has
stopped accepting connections), `cancelTask id` is `task.cancel()`,
`awaitTasks b` is `asyncio.gather(*background_tasks, return_exceptions=b)`
(with `b = true` the gather collects exceptions instead of propagating
them), and `closeSocket` is `sock.close()`. -/
inductive ServerEvent
  | serveStopped
  | cancelTask (id : Nat)
  | awaitTasks (return_exceptions : Bool)
  | closeSocket
  deriving DecidableEq, Repr

/-- `create_background_task`: `background_tasks.add(task)` — the new task
joins the live set at creation. -/
def create_background_task (tasks : Finset Nat) (id : Nat) : Finset Nat :=
  insert id tasks

/-- The `task.add_done_callback(background_tasks.discard)` callback: a
completed task removes itself from the live set. -/
def background_task_done (tasks : Finset Nat) (id : Nat) : Finset Nat :=
  tasks.erase id

/-- The shutdown epilogue of `run_server`, as the trace of its effects,
given the live task set at the moment the serve task completes.  The
`for task in background_tasks` loop iterates the set in some order; the
embedding fixes the ascending order. -/
def shutdownEpilogue (live : Finset Nat) : List ServerEvent :=
  ServerEvent.serveStopped ::
    ((live.sort (· ≤ ·)).map ServerEvent.cancelTask ++
      (if live.Nonempty then [ServerEvent.awaitTasks true] else []) ++
      [ServerEvent.closeSocket])

/-- Claim C7: for every task `id` live at shutdown, the trace contains, in
this order: serving stopped, the cancellation of `id`, the
error-collecting await of the cancelled tasks, and only then the socket
close; the trace starts by stopping the server and ends with the socket
close; and the supervisor adds every task to the live set at creation and
removes it at completion. -/
theorem shutdown_cancels_then_awaits_then_closes
    (live : Finset Nat) (id : Nat) (hid : id ∈ live) (tasks : Finset Nat) (tid : Nat) :
    [ServerEvent.serveStopped, ServerEvent.cancelTask id,
     ServerEvent.awaitTasks true, ServerEvent.closeSocket].Sublist
      (shutdownEpilogue live) ∧
    (shutdownEpilogue live).head? = some ServerEvent.serveStopped ∧
    (shutdownEpilogue live).getLast? = some ServerEvent.closeSocket ∧
    tid ∈ create_background_task tasks tid ∧
    tid ∉ background_task_done tasks tid := by
  refine ⟨?_, ?_, ?_, Finset.mem_insert_self tid tasks, Finset.not_mem_erase tid tasks⟩
  · unfold shutdownEpilogue
    rw [if_pos ⟨id, hid⟩]
    have hmem : ServerEvent.cancelTask id ∈ (live.sort (· ≤ ·)).map ServerEvent.cancelTask :=
      List.mem_map_of_mem _ ((Finset.mem_sort _).mpr hid)
    have h1 : [ServerEvent.cancelTask id].Sublist ((live.sort (· ≤ ·)).map ServerEvent.cancelTask) :=
      List.singleton_sublist.mpr hmem
    have h2 := List.Sublist.append
      (List.Sublist.append h1 (List.Sublist.refl [ServerEvent.awaitTasks true]))
      (List.Sublist.refl [ServerEvent.closeSocket])
    exact List.Sublist.cons₂ _ h2
  · simp [shutdownEpilogue]
  · unfold shutdownEpilogue
    rw [← List.cons_append]
    exact List.getLast?_concat _

/-- Witness for C7 with a single live task and a fresh supervisor set. -/
theorem shutdown_cancels_then_awaits_then_closes_witness :
    [ServerEvent.serveStopped, ServerEvent.cancelTask 7,
     ServerEvent.awaitTasks true, ServerEvent.closeSocket].Sublist
      (shutdownEpilogue {7}) ∧
    (shutdownEpilogue {7}).head? = some ServerEvent.serveStopped ∧
    (shutdownEpilogue {7}).getLast? = some ServerEvent.closeSocket ∧
    5 ∈ create_background_task ∅ 5 ∧
    5 ∉ background_task_done ∅ 5 :=
  shutdown_cancels_then_awaits_then_closes {7} 7 (Finset.mem_singleton_self 7) ∅ 5

/-! ## The HTTP façade

Embeds the endpoint handlers of `run_server` (lines 140-197).  JSON
request fields obtained by `data.get(...)` are `Option`s (`None` when the
field is absent).  A handler that raises before reaching
`create_background_task` is modelled as returning `.error`; a handler
that returns `{"status": "ok"}` after scheduling work returns `.ok` with
the task appended to the scheduled list. -/

/-- Python exceptions a handler can raise synchronously while parsing the
request. -/
inductive PyErr
  | attributeError  -- `None.split` or `getattr(torch, missing)`
  | typeError       -- `tuple(None)`
  deriving DecidableEq, Repr

/-- A background task scheduled by a handler via `create_background_task`,
described by the collective RPC it will await. -/
inductive ScheduledRpc
  | initComm (host : Option String) (port : Option Nat) (world_size : Option Nat)
  | updateParam (name : Option String) (dtype : TorchDtype) (shape : List Nat)
  | closeComm
  deriving DecidableEq, Repr

/-! ### dtype resolution: `getattr(torch, dtype_str.split(".")[-1])` -/

/-- Prepends a character to the first piece of a split (the accumulation
step of Python's `str.split`). -/
def consHead (c : Char) : List (List Char) → List (List Char)
  | [] => [[c]]
  | s :: ss => (c :: s) :: ss

/-- Python `s.split(".")` on the character list of `s`: splits at every
`'.'`, keeping empty pieces; the result is always nonempty. -/
def splitDot : List Char → List (List Char)
  | [] => [[]]
  | c :: rest => if c = '.' then [] :: splitDot rest else consHead c (splitDot rest)

/-- Python `dtype_str.split(".")[-1]`: the last piece of the split. -/
def lastDotSegment (dtype_str : String) : String :=
  String.mk ((splitDot dtype_str.data).getLastD [])

/-- An attribute table for the external `torch` module: `attr s` is the
value of `getattr(torch, s)` when the attribute exists and `none` when it
does not (Python raises `AttributeError` exactly then).  The real
module's attribute set is vast and not enumerable here, so every façade
theorem quantifies over the table and constrains only the entries it
actually uses. -/
def TorchTable : Type := String → Option TorchDtype

/-- `getattr(torch, dtype_str.split(".")[-1])`: the last dot segment of
the supplied string, looked up in the `torch` attribute table. -/
def resolveDtype (attr : TorchTable) (dtype_str : String) : Option TorchDtype :=
  attr (lastDotSegment dtype_str)

/-- A fragment of the real `torch` attribute table, used only to
instantiate the table-quantified theorems in concrete witnesses.  It
lists a few genuine dtype attributes and defaults to `none` elsewhere; it
is *not* an exhaustive model of the `torch` module (which has many more
attributes, e.g. `complex64` or `cat`) — that is why the handler
definitions and theorems take the table as a parameter instead of fixing
this fragment. -/
def torchTableFragment : TorchTable := fun s =>
  match s with
  | "float32" => some .float32
  | "float" => some .float32
  | "float64" => some .float64
  | "double" => some .float64
  | "float16" => some .float16
  | "half" => some .float16
  | "bfloat16" => some .bfloat16
  | "int8" => some .int8
  | "int16" => some .int16
  | "int32" => some .int32
  | "int" => some .int32
  | "int64" => some .int64
  | "long" => some .int64
  | "uint8" => some .uint8
  | "bool" => some .bool_
  | _ => none

lemma splitDot_dot_cons (ys : List Char) : splitDot ('.' :: ys) = [] :: splitDot ys := by
  simp [splitDot]

lemma splitDot_cons_of_ne (c : Char) (hc : c ≠ '.') (ys : List Char) :
    splitDot (c :: ys) = consHead c (splitDot ys) := by
  simp [splitDot, hc]

lemma splitDot_ne_nil (s : List Char) : splitDot s ≠ [] := by
  cases s with
  | nil => simp [splitDot]
  | cons c rest =>
      by_cases hc : c = '.'
      · subst hc; simp [splitDot_dot_cons]
      · rw [splitDot_cons_of_ne c hc]
        cases h : splitDot rest with
        | nil => simp [consHead]
        | cons s ss => simp [consHead]

lemma getLastD_of_ne_nil {α : Type} {l : List α} (h : l ≠ []) (d d' : α) :
    l.getLastD d = l.getLastD d' := by
  cases l with
  | nil => exact absurd rfl h
  | cons b t => rw [List.getLastD_cons, List.getLastD_cons]

lemma two_le_length_splitDot_append (xs ys : List Char) :
    2 ≤ (splitDot (xs ++ '.' :: ys)).length := by
  induction xs with
  | nil =>
      have hpos : 0 < (splitDot ys).length := List.length_pos.mpr (splitDot_ne_nil ys)
      rw [List.nil_append, splitDot_dot_cons, List.length_cons]
      omega
  | cons c rest ih =>
      rw [List.cons_append]
      by_cases hc : c = '.'
      · subst hc
        have hpos : 0 < (splitDot (rest ++ '.' :: ys)).length :=
          List.length_pos.mpr (splitDot_ne_nil _)
        rw [splitDot_dot_cons, List.length_cons]
        omega
      · rw [splitDot_cons_of_ne c hc]
        cases h : splitDot (rest ++ '.' :: ys) with
        | nil => exact absurd h (splitDot_ne_nil _)
        | cons s ss =>
            rw [h] at ih
            simpa [consHead] using ih

lemma getLastD_splitDot_append (xs ys : List Char) :
    (splitDot (xs ++ '.' :: ys)).getLastD [] = (splitDot ys).getLastD [] := by
  induction xs with
  | nil =>
      rw [List.nil_append, splitDot_dot_cons, List.getLastD_cons]
  | cons c rest ih =>
      rw [List.cons_append]
      by_cases hc : c = '.'
      · subst hc
        rw [splitDot_dot_cons, List.getLastD_cons]
        exact ih
      · rw [splitDot_cons_of_ne c hc]
        cases h : splitDot (rest ++ '.' :: ys) with
        | nil => exact absurd h (splitDot_ne_nil _)
        | cons s ss =>
            have hss : ss ≠ [] := by
              have h2 := two_le_length_splitDot_append rest ys
              rw [h] at h2
              cases ss with
              | nil => simp at h2
              | cons _ _ => simp
            rw [h] at ih
            simp only [consHead, List.getLastD_cons]
            rw [← ih, List.getLastD_cons]
            exact getLastD_of_ne_nil hss _ _

/-- Every string of the form `p ++ ".float32"` has last dot segment
`"float32"`, so the dtype resolution ignores any dotted prefix. -/
lemma lastDotSegment_append_dot_float32 (p : String) :
    lastDotSegment (p ++ ".float32") = "float32" := by
  unfold lastDotSegment
  rw [String.data_append p ".float32"]
  have hdot : (".float32" : String).data = '.' :: ("float32" : String).data := by decide
  rw [hdot, getLastD_splitDot_append]
  decide

/-! ### Request records and handlers -/

/-- The JSON body of a `POST /init_communicator` request, as read by
`data.get("host")`, `data.get("port")`, `data.get("world_size")`. -/
structure InitRequestJson where
  host : Option String
  port : Option Nat
  world_size : Option Nat
  deriving DecidableEq, Repr

/-- The JSON body of a `POST /update_named_param` request, as read by
`data.get("name")`, `data.get("dtype")`, `data.get("shape")`. -/
structure UpdateRequestJson where
  name : Option String
  dtype : Option String
  shape : Option (List Nat)
  deriving DecidableEq, Repr

/-- The `POST /init_communicator` handler: performs no validation of the
fields — it schedules the collective RPC with whatever `data.get`
returned and acks `"ok"`. -/
def init_communicator_endpoint (tasks : List ScheduledRpc) (req : InitRequestJson) :
    Except PyErr (List ScheduledRpc × String) :=
  .ok (tasks ++ [.initComm req.host req.port req.world_size], "ok")

/-- The `POST /update_named_param` handler, for a given `torch` attribute
table: resolves `getattr(torch, dtype_str.split(".")[-1])` then
`tuple(shape)`, raising synchronously when `dtype` is absent
(`None.split` → `AttributeError`), when the looked-up attribute does not
exist in the table (`AttributeError`), or when `shape` is absent
(`tuple(None)` → `TypeError`); only then schedules the throttled
collective RPC and acks `"ok"`. -/
def update_named_param_endpoint (attr : TorchTable) (tasks : List ScheduledRpc)
    (req : UpdateRequestJson) : Except PyErr (List ScheduledRpc × String) :=
  match req.dtype with
  | none => .error .attributeError
  | some ds =>
      match resolveDtype attr ds with
      | none => .error .attributeError
      | some dt =>
          match req.shape with
          | none => .error .typeError
          | some sh => .ok (tasks ++ [.updateParam req.name dt sh], "ok")

/-- The scheduled-task list after an `update_named_param` request: a
raised handler exception leaves it untouched. -/
def tasksAfterUpdateEndpoint (attr : TorchTable) (tasks : List ScheduledRpc)
    (req : UpdateRequestJson) : List ScheduledRpc :=
  match update_named_param_endpoint attr tasks req with
  | .ok (ts, _) => ts
  | .error _ => tasks

/-- The request conditions under which the `update_named_param` handler
raises before `create_background_task`, for a given `torch` attribute
table: missing `dtype`, a `dtype` whose last dot segment is not an
attribute of `torch`, or missing `shape`. -/
def malformedUpdateRequest (attr : TorchTable) (req : UpdateRequestJson) : Bool :=
  match req.dtype with
  | none => true
  | some ds => (resolveDtype attr ds).isNone || req.shape.isNone

/-! ### Claims about the façade -/

/-- Claim C8 counterexample: a `POST /init_communicator` request with all
fields missing is not rejected synchronously — the handler acks `"ok"`
and creates a background task, so a malformed mutating request does reach
the background-task stage. -/
theorem init_endpoint_schedules_malformed_request :
    init_communicator_endpoint [] { host := none, port := none, world_size := none } =
      .ok ([ScheduledRpc.initComm none none none], "ok") := rfl

lemma update_endpoint_error_of_malformed
    (attr : TorchTable) (tasks : List ScheduledRpc) (req : UpdateRequestJson)
    (hmal : malformedUpdateRequest attr req = true) :
    (update_named_param_endpoint attr tasks req).isOk = false ∧
    tasksAfterUpdateEndpoint attr tasks req = tasks := by
  cases hd : req.dtype with
  | none =>
      constructor <;>
        simp [update_named_param_endpoint, tasksAfterUpdateEndpoint, hd, Except.isOk, Except.toBool]
  | some ds =>
      cases hr : resolveDtype attr ds with
      | none =>
          constructor <;>
            simp [update_named_param_endpoint, tasksAfterUpdateEndpoint, hd, hr, Except.isOk, Except.toBool]
      | some dt =>
          cases hs : req.shape with
          | none =>
              constructor <;>
                simp [update_named_param_endpoint, tasksAfterUpdateEndpoint, hd, hr, hs,
                  Except.isOk, Except.toBool]
          | some sh =>
              exfalso
              simp [malformedUpdateRequest, hd, hr, hs] at hmal

lemma update_endpoint_ok_of_wellformed
    (attr : TorchTable) (tasks : List ScheduledRpc) (req : UpdateRequestJson)
    (hwf : malformedUpdateRequest attr req = false) :
    (update_named_param_endpoint attr tasks req).isOk = true := by
  cases hd : req.dtype with
  | none => exfalso; simp [malformedUpdateRequest, hd] at hwf
  | some ds =>
      cases hr : resolveDtype attr ds with
      | none => exfalso; simp [malformedUpdateRequest, hd, hr] at hwf
      | some dt =>
          cases hs : req.shape with
          | none => exfalso; simp [malformedUpdateRequest, hd, hr, hs] at hwf
          | some sh => simp [update_named_param_endpoint, hd, hr, hs, Except.isOk, Except.toBool]

/-- Claim C8 (amended): for every `torch` attribute table, a malformed
`update_named_param` request (missing `dtype`, a `dtype` whose last dot
segment is not a `torch` attribute, or missing `shape`) raises
synchronously in the handler before any background task is created, and
a well-formed one never raises synchronously; `init_communicator`
performs no such validation. -/
theorem update_endpoint_rejects_malformed_before_task
    (attr : TorchTable) (tasks : List ScheduledRpc) (req req2 : UpdateRequestJson)
    (hmal : malformedUpdateRequest attr req = true)
    (hwf : malformedUpdateRequest attr req2 = false) :
    (update_named_param_endpoint attr tasks req).isOk = false ∧
    tasksAfterUpdateEndpoint attr tasks req = tasks ∧
    (update_named_param_endpoint attr tasks req2).isOk = true :=
  ⟨(update_endpoint_error_of_malformed attr tasks req hmal).1,
   (update_endpoint_error_of_malformed attr tasks req hmal).2,
   update_endpoint_ok_of_wellformed attr tasks req2 hwf⟩

/-- Witness for C8 (amended), instantiated at the fragment table: a
request missing its `shape` is rejected with no task created; a
fully-formed `float32` request is accepted. -/
theorem update_endpoint_rejects_malformed_before_task_witness :
    (update_named_param_endpoint torchTableFragment []
      { name := some "layer.weight", dtype := some "torch.float32", shape := none }).isOk = false ∧
    tasksAfterUpdateEndpoint torchTableFragment []
      { name := some "layer.weight", dtype := some "torch.float32", shape := none } = [] ∧
    (update_named_param_endpoint torchTableFragment []
      { name := some "layer.weight", dtype := some "torch.float32", shape := some [4, 4] }).isOk = true :=
  update_endpoint_rejects_malformed_before_task torchTableFragment []
    { name := some "layer.weight", dtype := some "torch.float32", shape := none }
    { name := some "layer.weight", dtype := some "torch.float32", shape := some [4, 4] }
    (by decide) (by decide)

/-- The engine configuration consumed by `get_world_size`. -/
structure EngineArgs where
  tensor_parallel_size : Nat
  data_parallel_size : Nat
  deriving DecidableEq, Repr

/-- The `GET /get_world_size` handler: computes
`args.tensor_parallel_size * args.data_parallel_size` from the parsed
arguments.  The handler closes over the whole server state; the worker
communicator states are passed here to exhibit that the result does not
consult them. -/
def get_world_size (args : EngineArgs) (_workers : List WorkerState) : Nat :=
  args.tensor_parallel_size * args.data_parallel_size

/-- Claim C9: `get_world_size` returns exactly
`tensor_parallel_size * data_parallel_size`, and the result is the same
for any two worker communicator states — it is computed, never queried
from the workers. -/
theorem get_world_size_pure (args : EngineArgs) (workers workers2 : List WorkerState) :
    get_world_size args workers = args.tensor_parallel_size * args.data_parallel_size ∧
    get_world_size args workers = get_world_size args workers2 :=
  ⟨rfl, rfl⟩

/-- Claim C10: for every `torch` attribute table carrying the real
`float32` attribute, the `dtype` field resolves through the substring
after the last `'.'` looked up on the `torch` module — `"float32"`,
`"torch.float32"`, and any dotted prefix followed by `".float32"` all
resolve to the same `float32` dtype — while a request whose `dtype`'s
last segment is not a `torch` attribute raises synchronously in the
handler before any background task is created. -/
theorem dtype_resolved_from_last_dot_segment
    (attr : TorchTable) (hf : attr "float32" = some TorchDtype.float32)
    (p : String) (tasks : List ScheduledRpc) (req : UpdateRequestJson) (ds : String)
    (hds : req.dtype = some ds) (hbad : resolveDtype attr ds = none) :
    resolveDtype attr "float32" = some TorchDtype.float32 ∧
    resolveDtype attr "torch.float32" = some TorchDtype.float32 ∧
    resolveDtype attr (p ++ ".float32") = some TorchDtype.float32 ∧
    update_named_param_endpoint attr tasks req = .error .attributeError ∧
    tasksAfterUpdateEndpoint attr tasks req = tasks := by
  refine ⟨?_, ?_, ?_, ?_, ?_⟩
  · show attr (lastDotSegment "float32") = some TorchDtype.float32
    rw [show lastDotSegment "float32" = "float32" by decide]
    exact hf
  · show attr (lastDotSegment "torch.float32") = some TorchDtype.float32
    rw [show lastDotSegment "torch.float32" = "float32" by decide]
    exact hf
  · show attr (lastDotSegment (p ++ ".float32")) = some TorchDtype.float32
    rw [lastDotSegment_append_dot_float32 p]
    exact hf
  · simp [update_named_param_endpoint, hds, hbad]
  · simp [tasksAfterUpdateEndpoint, update_named_param_endpoint, hds, hbad]

/-- Witness for C10 at the fragment table: the prefix `"a.b"` and the
dtype string `"float99"`, which is not a `torch` attribute. -/
theorem dtype_resolved_from_last_dot_segment_witness :
    resolveDtype torchTableFragment "float32" = some TorchDtype.float32 ∧
    resolveDtype torchTableFragment "torch.float32" = some TorchDtype.float32 ∧
    resolveDtype torchTableFragment ("a.b" ++ ".float32") = some TorchDtype.float32 ∧
    update_named_param_endpoint torchTableFragment []
      { name := some "layer.weight", dtype := some "float99", shape := some [4, 4] } =
      .error .attributeError ∧
    tasksAfterUpdateEndpoint torchTableFragment []
      { name := some "layer.weight", dtype := some "float99", shape := some [4, 4] } = [] :=
  dtype_resolved_from_last_dot_segment torchTableFragment rfl "a.b" []
    { name := some "layer.weight", dtype := some "float99", shape := some [4, 4] }
    "float99" rfl (by decide)

end VllmServer
